import Mathlib

/-!
Shallow embedding of `src/grover_algorithm.py` (class `GroverAlgorithm`):
`create_oracle`, `calculate_iterations`, `create_diffusion` and
`create_circuit`, together with the error values they raise.

Modelling conventions:
* A quantum circuit is its instruction list (`List Gate`), in append order,
  mirroring qiskit's `QuantumCircuit.data`.
* `qc.append(GroverOperator(oracle_circuit), qn)` appends a single composite
  instruction built from the oracle circuit alone; it is modelled by the
  opaque constructor `Gate.grover` carrying that oracle circuit.
* numpy double arithmetic (`np.pi`, `np.sqrt`, `np.floor`) is modelled as
  exact real arithmetic; `int(np.floor r)` for a float NaN raises a
  `ValueError` in Python, which the model reproduces on the branch where
  the radicand is negative.
* Python's dynamic typing of the `solutions` argument is modelled by
  `SolArg`: a genuine list, some other iterable (tuple, string, ...), or a
  non-iterable object.  An element of a sequence is an int or some other
  value (`Sol`).  The qubit count `n` is modelled as an integer; a
  non-integer `n` takes the same `ValueError` branch as `n <= 0` in the
  source, so no behaviour relevant to the claims is lost.
-/

namespace GroverPy

/-- Python exception values raised by the module (identified by class and
message). -/
inductive PyErr where
  | valueError (msg : String)
  | typeError (msg : String)
  | runtimeError (msg : String)
  | zeroDivisionError (msg : String)
deriving DecidableEq

/-- `str(e)`: the message carried by an exception value. -/
def PyErr.msg : PyErr → String
  | .valueError m => m
  | .typeError m => m
  | .runtimeError m => m
  | .zeroDivisionError m => m

/-- The kind of a circuit instruction (its gate class). -/
inductive GateKind where
  | h
  | x
  | mcx
  | unitary
  | grover
  | measure
deriving DecidableEq

/-- A circuit instruction, mirroring the operations the source appends:
`qc.h(q)`, `qc.x(q)`, `qc.mcx(controls, target)`,
`qc.unitary(matrix, qubits, label)`, `qc.append(GroverOperator(oracle), qn)`
and `qc.measure(q, c)`. -/
inductive Gate where
  | h (q : ℕ)
  | x (q : ℕ)
  | mcx (controls : List ℕ) (target : ℕ)
  | unitary (mat : ℕ → ℕ → ℤ) (qubits : List ℕ) (label : String)
  | grover (oracle : List Gate)
  | measure (q : ℕ) (c : ℕ)

/-- The gate class of an instruction. -/
def Gate.kind : Gate → GateKind
  | .h _ => .h
  | .x _ => .x
  | .mcx _ _ => .mcx
  | .unitary _ _ _ => .unitary
  | .grover _ => .grover
  | .measure _ _ => .measure

/-- An element of a Python sequence passed as a solution: an int, or a value
of some other type (carrying a description of that value). -/
inductive Sol where
  | int (i : ℤ)
  | other (descr : String)
deriving DecidableEq

/-- The integer carried by a solution element, when it is an int. -/
def Sol.intVal : Sol → Option ℤ
  | .int i => some i
  | .other _ => none

/-- The Python object passed as the `solutions` argument: a genuine `list`,
some other iterable (tuple, string, ...) with its elements, or a
non-iterable object.  For a non-iterable object, `descr` is the message of
the `TypeError` that Python raises when iterating it. -/
inductive SolArg where
  | list (xs : List Sol)
  | iterable (xs : List Sol)
  | notIterable (descr : String)
deriving DecidableEq

/-- Iterating the `solutions` argument (as `for s in solutions` does):
yields its elements, or raises `TypeError` for a non-iterable object. -/
def SolArg.elems : SolArg → Except PyErr (List Sol)
  | .list xs => .ok xs
  | .iterable xs => .ok xs
  | .notIterable d => .error (.typeError d)

/-- `not isinstance(s, int) or s < 0 or s >= size`: the per-element test of
the validation `any(...)` in the source. -/
def badSol (size : ℤ) : Sol → Bool
  | .int i => decide (i < 0) || decide (size ≤ i)
  | .other _ => true

/-- The text `[0, {size-1}]` of the valid range, as formatted by the
source's f-string. -/
def rangeText (size : ℤ) : String := "[0, " ++ toString (size - 1) ++ "]"

/-- The message `All solutions must be integers in range [0, {size-1}]`. -/
def rangeMsg (size : ℤ) : String :=
  "All solutions must be integers in range " ++ rangeText size

/-- `np.eye(size)` as a function matrix (entries beyond the actual
`size × size` block are irrelevant to every statement below, which
constrains indices to the block). -/
def eyeZ : ℕ → ℕ → ℤ := fun i j => if i = j then 1 else 0

/-- One pass of the loop body `oracle[idx, idx] = -1`. -/
def setNeg (m : ℕ → ℕ → ℤ) (idx : ℤ) : ℕ → ℕ → ℤ :=
  fun i j => if i = idx.toNat ∧ j = idx.toNat then -1 else m i j

/-- The oracle matrix: `np.eye(size)` followed by `oracle[idx, idx] = -1`
for each `idx` in the solution list, in order. -/
def oracleMatrix (ids : List ℤ) : ℕ → ℕ → ℤ := ids.foldl setNeg eyeZ

/-- `GroverAlgorithm.create_oracle(self, n, s_list)`.
Validation in source order: the qubit-count check, the
`not s_list or not isinstance(s_list, list)` check, then the range check;
on success, one opaque unitary block labeled `"Oracle"` over qubits
`0..n-1`.  (The `try` around `oracle_circuit.unitary` cannot fail in the
model, where the embedding of a matrix is a pure constructor.) -/
def create_oracle (n : ℤ) (s_list : SolArg) : Except PyErr (List Gate) :=
  if n ≤ 0 then .error (.valueError "Number of qubits must be a positive integer")
  else
    match s_list with
    | .list xs =>
        if xs.isEmpty then
          .error (.valueError "Solutions must be provided as a non-empty list")
        else
          if xs.any (badSol (2 ^ n.toNat)) then
            .error (.valueError (rangeMsg (2 ^ n.toNat)))
          else
            .ok [Gate.unitary (oracleMatrix (xs.filterMap Sol.intVal))
                  (List.range n.toNat) "Oracle"]
    | _ => .error (.valueError "Solutions must be provided as a non-empty list")

/-- `GroverAlgorithm.calculate_iterations(self, N, M)`.
If `M >= N` return `1`; otherwise compute
`max(1, int(np.floor((np.pi / 4) * np.sqrt(N / M))))`.
`N / M` raises `ZeroDivisionError` when `M = 0`; when the quotient is
negative (`M < 0 < N`), `np.sqrt` yields NaN and the later `int(...)`
conversion raises a `ValueError`. -/
noncomputable def calculate_iterations (N M : ℤ) : Except PyErr ℤ :=
  if N ≤ M then .ok 1
  else if M = 0 then .error (.zeroDivisionError "division by zero")
  else if M < 0 ∧ 0 < N then .error (.valueError "cannot convert float NaN to integer")
  else .ok (max 1 ⌊(Real.pi / 4) * Real.sqrt ((N : ℝ) / (M : ℝ))⌋)

/-- The gate list built by `create_diffusion` for `n` qubits:
`n` Hadamards, `n` X gates, the H–MCX–H sandwich on the last qubit with all
other qubits as controls, `n` X gates, `n` Hadamards. -/
def diffusionGates (n : ℕ) : List Gate :=
  (List.range n).map Gate.h ++ (List.range n).map Gate.x ++
    [Gate.h (n - 1), Gate.mcx (List.range (n - 1)) (n - 1), Gate.h (n - 1)] ++
    (List.range n).map Gate.x ++ (List.range n).map Gate.h

/-- `GroverAlgorithm.create_diffusion(self, n)`. -/
def create_diffusion (n : ℤ) : Except PyErr (List Gate) :=
  if n ≤ 0 then .error (.valueError "Number of qubits must be a positive integer")
  else .ok (diffusionGates n.toNat)

/-- The `try` body of `GroverAlgorithm.create_circuit(self, n, solutions)`:
validate `n`, run the range check (which iterates `solutions`), build the
oracle circuit, wrap it as the composite Grover operator, compute `k`, and
assemble Hadamard layer, `k` composite iterations, and measurements. -/
noncomputable def createCircuitBody (n : ℤ) (solutions : SolArg) : Except PyErr (List Gate) :=
  if n ≤ 0 then .error (.valueError "Number of qubits must be a positive integer")
  else
    match solutions.elems with
    | .error e => .error e
    | .ok elems =>
      if elems.any (badSol (2 ^ n.toNat)) then
        .error (.valueError (rangeMsg (2 ^ n.toNat)))
      else
        match create_oracle n solutions with
        | .error e => .error e
        | .ok oracle_circuit =>
          match calculate_iterations (2 ^ n.toNat) elems.length with
          | .error e => .error e
          | .ok k =>
            .ok ((List.range n.toNat).map Gate.h
              ++ List.replicate k.toNat (Gate.grover oracle_circuit)
              ++ (List.range n.toNat).map (fun i => Gate.measure i i))

/-- The `except` clauses of `create_circuit` (lines 123–127): a `ValueError`
is re-raised unchanged; any other exception is wrapped as
`RuntimeError("Circuit creation failed: " + str(e))`. -/
def wrapConstruction (r : Except PyErr (List Gate)) : Except PyErr (List Gate) :=
  match r with
  | .ok c => .ok c
  | .error (.valueError m) => .error (.valueError m)
  | .error e => .error (.runtimeError ("Circuit creation failed: " ++ e.msg))

/-- `GroverAlgorithm.create_circuit(self, n, solutions)`: the `try` body
under the two `except` clauses. -/
noncomputable def create_circuit (n : ℤ) (solutions : SolArg) : Except PyErr (List Gate) :=
  wrapConstruction (createCircuitBody n solutions)

/-- Does `pat` occur as a contiguous run inside `l`?  Used to state whether
an error message names a value. -/
def hasSubstring (pat : List Char) : List Char → Bool
  | [] => pat.isEmpty
  | c :: rest => pat.isPrefixOf (c :: rest) || hasSubstring pat rest

/-- An invalid call in the sense of the spec's InvalidArgument taxonomy:
qubit count not positive, or solutions not a list (wrong shape), or empty,
or containing a non-int or out-of-range element. -/
def badInputB (n : ℤ) (sols : SolArg) : Bool :=
  decide (n ≤ 0) ||
    (match sols with
     | .list xs => xs.isEmpty || xs.any (badSol (2 ^ n.toNat))
     | .iterable _ => true
     | .notIterable _ => true)

/-! Helper lemmas -/

/-- `create_oracle` with a non-positive qubit count. -/
lemma create_oracle_neg (n : ℤ) (sols : SolArg) (hn : n ≤ 0) :
    create_oracle n sols =
      .error (.valueError "Number of qubits must be a positive integer") := by
  unfold create_oracle
  rw [if_pos hn]

/-- `create_oracle` with a non-list iterable: the `isinstance` check fails. -/
lemma create_oracle_not_list (n : ℤ) (hn : 0 < n) (xs : List Sol) :
    create_oracle n (.iterable xs) =
      .error (.valueError "Solutions must be provided as a non-empty list") := by
  unfold create_oracle
  rw [if_neg (by omega)]

/-- `create_oracle` with a non-iterable argument: the `isinstance` check
fails before anything iterates it. -/
lemma create_oracle_notIterable (n : ℤ) (hn : 0 < n) (d : String) :
    create_oracle n (.notIterable d) =
      .error (.valueError "Solutions must be provided as a non-empty list") := by
  unfold create_oracle
  rw [if_neg (by omega)]

/-- `create_oracle` with an empty list. -/
lemma create_oracle_empty (n : ℤ) (hn : 0 < n) :
    create_oracle n (.list []) =
      .error (.valueError "Solutions must be provided as a non-empty list") := by
  unfold create_oracle
  rw [if_neg (by omega)]
  rfl

/-- `create_oracle` with an out-of-range or non-int element. -/
lemma create_oracle_bad_range (n : ℤ) (hn : 0 < n) (xs : List Sol) (hne : xs ≠ [])
    (hany : xs.any (badSol (2 ^ n.toNat)) = true) :
    create_oracle n (.list xs) = .error (.valueError (rangeMsg (2 ^ n.toNat))) := by
  unfold create_oracle
  rw [if_neg (by omega)]
  have hemp : xs.isEmpty = false := by
    cases xs with
    | nil => exact absurd rfl hne
    | cons a t => rfl
  simp only [hemp, hany, Bool.false_eq_true, if_false, if_true]

/-- The `try` body with a non-positive qubit count. -/
lemma createCircuitBody_neg (n : ℤ) (sols : SolArg) (hn : n ≤ 0) :
    createCircuitBody n sols =
      .error (.valueError "Number of qubits must be a positive integer") := by
  unfold createCircuitBody
  rw [if_pos hn]

/-- The `try` body when the range check finds a bad element. -/
lemma createCircuitBody_bad_range (n : ℤ) (sols : SolArg) (xs : List Sol) (hn : 0 < n)
    (he : sols.elems = .ok xs) (hany : xs.any (badSol (2 ^ n.toNat)) = true) :
    createCircuitBody n sols = .error (.valueError (rangeMsg (2 ^ n.toNat))) := by
  unfold createCircuitBody
  rw [if_neg (by omega), he]
  simp only [hany, if_true]

/-- The `try` body when the range check passes but `create_oracle` raises. -/
lemma createCircuitBody_oracle_err (n : ℤ) (sols : SolArg) (xs : List Sol) (hn : 0 < n)
    (he : sols.elems = .ok xs) (hany : xs.any (badSol (2 ^ n.toNat)) = false)
    (e : PyErr) (ho : create_oracle n sols = .error e) :
    createCircuitBody n sols = .error e := by
  unfold createCircuitBody
  rw [if_neg (by omega), he]
  simp only [hany, Bool.false_eq_true, if_false, ho]

/-- The `try` body with a non-iterable solutions argument: iterating it in
the range check raises a `TypeError`. -/
lemma createCircuitBody_notIterable (n : ℤ) (d : String) (hn : 0 < n) :
    createCircuitBody n (.notIterable d) = .error (.typeError d) := by
  unfold createCircuitBody
  rw [if_neg (by omega)]
  rfl

/-- A `ValueError` from the body passes through `create_circuit` unchanged. -/
lemma create_circuit_of_valueError (n : ℤ) (sols : SolArg) (m : String)
    (h : createCircuitBody n sols = .error (.valueError m)) :
    create_circuit n sols = .error (.valueError m) := by
  unfold create_circuit
  rw [h]
  rfl

/-- The gate classes occurring in `diffusionGates n`, position by position. -/
lemma diffusionGates_kinds (n : ℕ) :
    (diffusionGates n).map Gate.kind =
      List.replicate n .h ++ List.replicate n .x ++ [.h, .mcx, .h] ++
      List.replicate n .x ++ List.replicate n .h := by
  simp [diffusionGates, Gate.kind, Function.comp_def, List.map_const']

/-- Effect of the assignment loop on an arbitrary starting matrix. -/
lemma foldl_setNeg (ids : List ℤ) (m : ℕ → ℕ → ℤ) (i j : ℕ) :
    ids.foldl setNeg m i j =
      if i = j ∧ i ∈ ids.map Int.toNat then -1 else m i j := by
  induction ids generalizing m with
  | nil => simp
  | cons a t ih =>
    rw [List.foldl_cons, ih]
    by_cases hij : i = j
    · subst hij
      by_cases hmem : i ∈ t.map Int.toNat
      · simp [hmem]
      · by_cases ha : i = a.toNat
        · simp [hmem, ha, setNeg]
        · simp [hmem, ha, setNeg]
    · simp only [hij, false_and, if_false, setNeg]
      rw [if_neg]
      rintro ⟨h1, h2⟩
      exact hij (h1.trans h2.symm)

/-- Every element of the validated solution list is a nonnegative integer
below `size`. -/
lemma validated_sols (size : ℤ) (xs : List Sol) (hval : xs.any (badSol size) = false) :
    ∀ a ∈ xs.filterMap Sol.intVal, 0 ≤ a ∧ a < size := by
  intro a ha
  rcases List.mem_filterMap.mp ha with ⟨s, hs, hsv⟩
  have hb : badSol size s = false := by
    have := List.any_eq_false.mp hval s hs
    simpa using this
  cases s with
  | int i =>
    cases hsv
    simp [badSol, decide_eq_false_iff_not] at hb
    omega
  | other d => simp [Sol.intVal] at hsv

/-- `create_oracle` on a valid call returns the single labeled unitary
block. -/
lemma create_oracle_ok (n : ℤ) (xs : List Sol) (hn : 0 < n) (hne : xs ≠ [])
    (hval : xs.any (badSol (2 ^ n.toNat)) = false) :
    create_oracle n (.list xs) =
      .ok [Gate.unitary (oracleMatrix (xs.filterMap Sol.intVal))
            (List.range n.toNat) "Oracle"] := by
  unfold create_oracle
  rw [if_neg (by omega)]
  have hemp : xs.isEmpty = false := by
    cases xs with
    | nil => exact absurd rfl hne
    | cons a t => rfl
  simp only [hemp, hval, Bool.false_eq_true, if_false]

/-- `calculate_iterations` never returns a value below 1. -/
lemma calculate_iterations_pos (N M k : ℤ)
    (h : calculate_iterations N M = .ok k) : 1 ≤ k := by
  unfold calculate_iterations at h
  split_ifs at h with h1 h2 h3
  · injection h with h'
    omega
  · injection h with h'
    rw [← h']
    exact le_max_left 1 _

/-- The `try` body of `create_circuit` on a valid call. -/
lemma createCircuitBody_ok (n : ℤ) (xs : List Sol) (k : ℤ) (hn : 0 < n)
    (hne : xs ≠ []) (hval : xs.any (badSol (2 ^ n.toNat)) = false)
    (hk : calculate_iterations (2 ^ n.toNat) xs.length = .ok k) :
    createCircuitBody n (.list xs) =
      .ok ((List.range n.toNat).map Gate.h
        ++ List.replicate k.toNat
            (Gate.grover [Gate.unitary (oracleMatrix (xs.filterMap Sol.intVal))
              (List.range n.toNat) "Oracle"])
        ++ (List.range n.toNat).map (fun i => Gate.measure i i)) := by
  unfold createCircuitBody
  rw [if_neg (by omega)]
  simp only [SolArg.elems]
  rw [if_neg (by simp [hval]), create_oracle_ok n xs hn hne hval, hk]

/-- Concrete evaluation of the iteration count for N = 4, M = 1:
⌊(π/4)·√4⌋ = ⌊π/2⌋ = 1. -/
lemma calculate_iterations_four_one : calculate_iterations 4 1 = .ok 1 := by
  unfold calculate_iterations
  rw [if_neg (by omega), if_neg (by omega), if_neg (by omega)]
  have h4 : (((4 : ℤ) : ℝ) / ((1 : ℤ) : ℝ)) = 4 := by norm_num
  have hs : Real.sqrt 4 = 2 := by
    rw [show (4 : ℝ) = 2 ^ 2 by norm_num, Real.sqrt_sq (by norm_num : (0 : ℝ) ≤ 2)]
  have hfl : ⌊Real.pi / 4 * Real.sqrt 4⌋ = 1 := by
    rw [hs, show Real.pi / 4 * 2 = Real.pi / 2 by ring, Int.floor_eq_iff]
    constructor
    · push_cast
      linarith [Real.pi_gt_three]
    · push_cast
      linarith [Real.pi_lt_d2]
  rw [h4, hfl]
  rfl

/-! Theorems -/

/-- C4: for every integer n > 0, `create_diffusion(n)` returns a circuit whose
gate sequence has length exactly 4n+3, whose gate-type set is exactly
{Hadamard, Pauli-X, multi-controlled-NOT}, and whose order is: n Hadamards,
n X gates, Hadamard on the last qubit, a multi-controlled-NOT with qubits
0..n−2 as controls and the last qubit as target, Hadamard on the last qubit,
n X gates, n Hadamards. -/
theorem create_diffusion_structure (n : ℤ) (hn : 0 < n) :
    create_diffusion n =
      .ok ((List.range n.toNat).map Gate.h ++ (List.range n.toNat).map Gate.x ++
        [Gate.h (n.toNat - 1), Gate.mcx (List.range (n.toNat - 1)) (n.toNat - 1),
          Gate.h (n.toNat - 1)] ++
        (List.range n.toNat).map Gate.x ++ (List.range n.toNat).map Gate.h) ∧
    (diffusionGates n.toNat).length = 4 * n.toNat + 3 ∧
    ∀ k : GateKind,
      k ∈ (diffusionGates n.toNat).map Gate.kind ↔ (k = .h ∨ k = .x ∨ k = .mcx) := by
  have hpos : 0 < n.toNat := by omega
  refine ⟨?_, ?_, ?_⟩
  · unfold create_diffusion
    rw [if_neg (by omega)]
    rfl
  · simp [diffusionGates]
    omega
  · intro k
    rw [diffusionGates_kinds]
    simp [List.mem_replicate, hpos.ne']
    constructor
    · tauto
    · tauto

/-- Witness for C4 at n = 2. -/
theorem create_diffusion_structure_witness :
    (0 : ℤ) < 2 ∧
    (create_diffusion 2 =
      .ok ((List.range (2 : ℤ).toNat).map Gate.h ++ (List.range (2 : ℤ).toNat).map Gate.x ++
        [Gate.h ((2 : ℤ).toNat - 1),
          Gate.mcx (List.range ((2 : ℤ).toNat - 1)) ((2 : ℤ).toNat - 1),
          Gate.h ((2 : ℤ).toNat - 1)] ++
        (List.range (2 : ℤ).toNat).map Gate.x ++ (List.range (2 : ℤ).toNat).map Gate.h) ∧
    (diffusionGates (2 : ℤ).toNat).length = 4 * (2 : ℤ).toNat + 3 ∧
    ∀ k : GateKind,
      k ∈ (diffusionGates (2 : ℤ).toNat).map Gate.kind ↔ (k = .h ∨ k = .x ∨ k = .mcx)) :=
  ⟨by decide, create_diffusion_structure 2 (by decide)⟩


/-- C1: for every positive integer n and every valid non-empty solutions
list, `create_circuit(n, solutions)` returns a circuit consisting of a
Hadamard gate on each of the n qubits, then exactly k applications of the
composite Grover-iteration operator with
k = `calculate_iterations(2^n, len(solutions))`, then a measurement of every
qubit into an n-bit classical register, in that order, with nothing else. -/
theorem create_circuit_structure (n : ℤ) (xs : List Sol) (k : ℤ) (hn : 0 < n)
    (hne : xs ≠ []) (hval : xs.any (badSol (2 ^ n.toNat)) = false)
    (hk : calculate_iterations (2 ^ n.toNat) xs.length = .ok k) :
    1 ≤ k ∧
    create_circuit n (.list xs) =
      .ok ((List.range n.toNat).map Gate.h
        ++ List.replicate k.toNat
            (Gate.grover [Gate.unitary (oracleMatrix (xs.filterMap Sol.intVal))
              (List.range n.toNat) "Oracle"])
        ++ (List.range n.toNat).map (fun i => Gate.measure i i)) := by
  refine ⟨calculate_iterations_pos _ _ _ hk, ?_⟩
  unfold create_circuit
  rw [createCircuitBody_ok n xs k hn hne hval hk]
  rfl

/-- Witness for C1 at n = 2, solutions = [1], where k = 1. -/
theorem create_circuit_structure_witness :
    (0 : ℤ) < 2 ∧ ([Sol.int 1] : List Sol) ≠ [] ∧
    ([Sol.int 1] : List Sol).any (badSol (2 ^ (2 : ℤ).toNat)) = false ∧
    calculate_iterations (2 ^ (2 : ℤ).toNat) ([Sol.int 1] : List Sol).length = .ok 1 ∧
    (1 ≤ (1 : ℤ) ∧
    create_circuit 2 (.list [Sol.int 1]) =
      .ok ((List.range (2 : ℤ).toNat).map Gate.h
        ++ List.replicate (1 : ℤ).toNat
            (Gate.grover [Gate.unitary
              (oracleMatrix (([Sol.int 1] : List Sol).filterMap Sol.intVal))
              (List.range (2 : ℤ).toNat) "Oracle"])
        ++ (List.range (2 : ℤ).toNat).map (fun i => Gate.measure i i))) :=
  ⟨by decide, by decide, by decide, calculate_iterations_four_one,
    create_circuit_structure 2 [Sol.int 1] 1 (by decide) (by decide) (by decide)
      calculate_iterations_four_one⟩

/-- C6 counterexample: at n = 2, solutions = [1] (where k = 1), the circuit
produced by `create_circuit` is not the Hadamard layer followed by
`create_oracle`'s circuit followed by `create_diffusion`'s gate sequence
followed by the measurements: the iteration appended by the source is the
single opaque composite `GroverOperator(oracle_circuit)`, and
`create_diffusion` is never invoked by `create_circuit`. -/
theorem create_circuit_not_inlined :
    create_circuit 2 (.list [Sol.int 1]) ≠
      .ok ([Gate.h 0, Gate.h 1]
        ++ ([Gate.unitary (oracleMatrix (([Sol.int 1] : List Sol).filterMap Sol.intVal))
              (List.range 2) "Oracle"] ++ diffusionGates 2)
        ++ [Gate.measure 0 0, Gate.measure 1 1]) := by
  intro hcontra
  have h : create_circuit 2 (.list [Sol.int 1]) =
      .ok ((List.range (2 : ℤ).toNat).map Gate.h
        ++ List.replicate (1 : ℤ).toNat
            (Gate.grover [Gate.unitary
              (oracleMatrix (([Sol.int 1] : List Sol).filterMap Sol.intVal))
              (List.range (2 : ℤ).toNat) "Oracle"])
        ++ (List.range (2 : ℤ).toNat).map (fun i => Gate.measure i i)) := by
    unfold create_circuit
    rw [createCircuitBody_ok 2 [Sol.int 1] 1 (by decide) (by decide) (by decide)
      calculate_iterations_four_one]
    rfl
  rw [h] at hcontra
  injection hcontra with h'
  have hlen := congrArg List.length h'
  simp [diffusionGates] at hlen

/-- C6 amended: in every circuit produced by `create_circuit`, each of the k
iteration blocks is the single opaque composite Grover operator constructed
from `create_oracle`'s circuit alone; that block is not the concatenation of
the oracle circuit with `create_diffusion`'s gate sequence, which
`create_circuit` never invokes. -/
theorem create_circuit_iteration_blocks (n : ℤ) (xs : List Sol) (k : ℤ) (hn : 0 < n)
    (hne : xs ≠ []) (hval : xs.any (badSol (2 ^ n.toNat)) = false)
    (hk : calculate_iterations (2 ^ n.toNat) xs.length = .ok k) :
    create_circuit n (.list xs) =
      .ok ((List.range n.toNat).map Gate.h
        ++ List.replicate k.toNat
            (Gate.grover [Gate.unitary (oracleMatrix (xs.filterMap Sol.intVal))
              (List.range n.toNat) "Oracle"])
        ++ (List.range n.toNat).map (fun i => Gate.measure i i)) ∧
    [Gate.grover [Gate.unitary (oracleMatrix (xs.filterMap Sol.intVal))
        (List.range n.toNat) "Oracle"]] ≠
      [Gate.unitary (oracleMatrix (xs.filterMap Sol.intVal))
        (List.range n.toNat) "Oracle"] ++ diffusionGates n.toNat := by
  constructor
  · unfold create_circuit
    rw [createCircuitBody_ok n xs k hn hne hval hk]
    rfl
  · intro hcontra
    have hlen := congrArg List.length hcontra
    simp [diffusionGates] at hlen

/-- Witness for the amended C6 at n = 2, solutions = [1], k = 1. -/
theorem create_circuit_iteration_blocks_witness :
    (0 : ℤ) < 2 ∧ ([Sol.int 1] : List Sol) ≠ [] ∧
    ([Sol.int 1] : List Sol).any (badSol (2 ^ (2 : ℤ).toNat)) = false ∧
    calculate_iterations (2 ^ (2 : ℤ).toNat) ([Sol.int 1] : List Sol).length = .ok 1 ∧
    (create_circuit 2 (.list [Sol.int 1]) =
      .ok ((List.range (2 : ℤ).toNat).map Gate.h
        ++ List.replicate (1 : ℤ).toNat
            (Gate.grover [Gate.unitary
              (oracleMatrix (([Sol.int 1] : List Sol).filterMap Sol.intVal))
              (List.range (2 : ℤ).toNat) "Oracle"])
        ++ (List.range (2 : ℤ).toNat).map (fun i => Gate.measure i i)) ∧
    [Gate.grover [Gate.unitary
        (oracleMatrix (([Sol.int 1] : List Sol).filterMap Sol.intVal))
        (List.range (2 : ℤ).toNat) "Oracle"]] ≠
      [Gate.unitary (oracleMatrix (([Sol.int 1] : List Sol).filterMap Sol.intVal))
        (List.range (2 : ℤ).toNat) "Oracle"] ++ diffusionGates (2 : ℤ).toNat) :=
  ⟨by decide, by decide, by decide, calculate_iterations_four_one,
    create_circuit_iteration_blocks 2 [Sol.int 1] 1 (by decide) (by decide) (by decide)
      calculate_iterations_four_one⟩

/-- C7 counterexample: `create_circuit(2, solutions)` with a non-iterable
solutions argument (e.g. an int) does not fail with a `ValueError`: the
range check iterates the argument before any shape validation, and the
resulting `TypeError` is wrapped as a `RuntimeError`. -/
theorem create_circuit_notIterable_wrapped :
    create_circuit 2 (.notIterable "int object is not iterable") =
      .error (.runtimeError
        ("Circuit creation failed: " ++ "int object is not iterable")) := rfl

/-- C7 amended: every call to `create_oracle` with an invalid input fails
with a `ValueError`; so does every call to `create_circuit` with an invalid
input, except that when the qubit count is valid and the solutions argument
is not iterable, `create_circuit` fails with a wrapped `RuntimeError`
instead, because the range check iterates the argument before any shape
validation. -/
theorem invalid_input_errors (n : ℤ) (sols : SolArg)
    (hbad : badInputB n sols = true) :
    (∃ m, create_oracle n sols = .error (.valueError m)) ∧
    (∀ xs, sols = .list xs ∨ sols = .iterable xs →
      ∃ m, create_circuit n sols = .error (.valueError m)) ∧
    (∀ d, sols = .notIterable d → n ≤ 0 →
      ∃ m, create_circuit n sols = .error (.valueError m)) ∧
    (∀ d, sols = .notIterable d → 0 < n →
      create_circuit n sols =
        .error (.runtimeError ("Circuit creation failed: " ++ d))) := by
  by_cases hn : n ≤ 0
  · refine ⟨⟨_, create_oracle_neg n sols hn⟩, ?_, ?_, ?_⟩
    · intro xs _
      exact ⟨_, create_circuit_of_valueError n sols _ (createCircuitBody_neg n sols hn)⟩
    · intro d _ _
      exact ⟨_, create_circuit_of_valueError n sols _ (createCircuitBody_neg n sols hn)⟩
    · intro d _ hn'
      omega
  · have hn' : 0 < n := by omega
    cases sols with
    | list xs =>
      have hlb : xs.isEmpty = true ∨ xs.any (badSol (2 ^ n.toNat)) = true := by
        unfold badInputB at hbad
        simpa [hn] using hbad
      cases hemp : xs.isEmpty with
      | true =>
        have hxs : xs = [] := List.isEmpty_iff.mp hemp
        subst hxs
        refine ⟨⟨_, create_oracle_empty n hn'⟩, ?_, ?_, ?_⟩
        · intro ys _
          exact ⟨_, create_circuit_of_valueError n (.list []) _
            (createCircuitBody_oracle_err n (.list []) [] hn' rfl rfl _
              (create_oracle_empty n hn'))⟩
        · intro d hd
          cases hd
        · intro d hd
          cases hd
      | false =>
        have hne : xs ≠ [] := by
          intro hxs
          subst hxs
          simp at hemp
        have hany : xs.any (badSol (2 ^ n.toNat)) = true := by
          rcases hlb with h | h
          · rw [hemp] at h
            cases h
          · exact h
        refine ⟨⟨_, create_oracle_bad_range n hn' xs hne hany⟩, ?_, ?_, ?_⟩
        · intro ys _
          exact ⟨_, create_circuit_of_valueError n (.list xs) _
            (createCircuitBody_bad_range n (.list xs) xs hn' rfl hany)⟩
        · intro d hd
          cases hd
        · intro d hd
          cases hd
    | iterable xs =>
      refine ⟨⟨_, create_oracle_not_list n hn' xs⟩, ?_, ?_, ?_⟩
      · intro ys _
        cases hany : xs.any (badSol (2 ^ n.toNat)) with
        | true =>
          exact ⟨_, create_circuit_of_valueError n (.iterable xs) _
            (createCircuitBody_bad_range n (.iterable xs) xs hn' rfl hany)⟩
        | false =>
          exact ⟨_, create_circuit_of_valueError n (.iterable xs) _
            (createCircuitBody_oracle_err n (.iterable xs) xs hn' rfl hany _
              (create_oracle_not_list n hn' xs))⟩
      · intro d hd
        cases hd
      · intro d hd
        cases hd
    | notIterable d =>
      refine ⟨⟨_, create_oracle_notIterable n hn' d⟩, ?_, ?_, ?_⟩
      · intro ys hys
        rcases hys with h | h <;> cases h
      · intro d' _ hle
        omega
      · intro d' hd hpos
        have hdd : d = d' := by injection hd
        subst hdd
        unfold create_circuit
        rw [createCircuitBody_notIterable n d hpos]
        rfl

/-- Witness for the amended C7 at n = 0, solutions = [0]. -/
theorem invalid_input_errors_witness :
    badInputB 0 (.list [Sol.int 0]) = true ∧
    (∃ m, create_oracle 0 (.list [Sol.int 0]) = .error (.valueError m)) ∧
    (∃ m, create_circuit 0 (.list [Sol.int 0]) = .error (.valueError m)) :=
  ⟨by decide, (invalid_input_errors 0 (.list [Sol.int 0]) (by decide)).1,
    (invalid_input_errors 0 (.list [Sol.int 0]) (by decide)).2.1 [Sol.int 0] (Or.inl rfl)⟩

/-- C8: a `ValueError` arising inside the `try` body of `create_circuit`
propagates to the caller unchanged, while any other failure of the body is
wrapped as a `RuntimeError` whose message carries the original cause. -/
theorem create_circuit_wrapping (n : ℤ) (sols : SolArg) (m : String) (e : PyErr)
    (he : ∀ s, e ≠ .valueError s) :
    (createCircuitBody n sols = .error (.valueError m) →
      create_circuit n sols = .error (.valueError m)) ∧
    (createCircuitBody n sols = .error e →
      create_circuit n sols =
        .error (.runtimeError ("Circuit creation failed: " ++ e.msg))) := by
  constructor
  · intro h
    exact create_circuit_of_valueError n sols m h
  · intro h
    unfold create_circuit
    rw [h]
    cases e with
    | valueError s => exact absurd rfl (he s)
    | typeError s => rfl
    | runtimeError s => rfl
    | zeroDivisionError s => rfl

/-- Witness for C8: the empty-list `ValueError` passes through unchanged at
n = 2, and a `TypeError` from a non-iterable argument is wrapped. -/
theorem create_circuit_wrapping_witness :
    createCircuitBody 2 (.list []) =
      .error (.valueError "Solutions must be provided as a non-empty list") ∧
    create_circuit 2 (.list []) =
      .error (.valueError "Solutions must be provided as a non-empty list") ∧
    createCircuitBody 2 (.notIterable "boom") = .error (.typeError "boom") ∧
    create_circuit 2 (.notIterable "boom") =
      .error (.runtimeError ("Circuit creation failed: " ++ (PyErr.typeError "boom").msg)) :=
  ⟨rfl,
    (create_circuit_wrapping 2 (.list []) "Solutions must be provided as a non-empty list"
      (.typeError "boom") (fun s h => PyErr.noConfusion h)).1 rfl,
    rfl,
    (create_circuit_wrapping 2 (.notIterable "boom")
      "Solutions must be provided as a non-empty list"
      (.typeError "boom") (fun s h => PyErr.noConfusion h)).2 rfl⟩

/-- C9 counterexample: the out-of-range `ValueError` at n = 2, s_list = [5]
carries the message "All solutions must be integers in range [0, 3]", which
does not name the offending value 5. -/
theorem range_message_omits_value :
    create_oracle 2 (.list [Sol.int 5]) = .error (.valueError (rangeMsg 4)) ∧
    rangeMsg 4 = "All solutions must be integers in range [0, 3]" ∧
    hasSubstring (toString (5 : ℤ)).data (rangeMsg 4).data = false :=
  ⟨rfl, by decide, by decide⟩

/-- C9 amended: each validation `ValueError` carries a fixed message. The
qubit-count and empty-list messages name neither the offending value nor a
range; the out-of-range message names the valid range [0, 2^n−1] but, being
independent of the solutions list, not the offending value. -/
theorem validation_messages (n : ℤ) (xs : List Sol) :
    (n ≤ 0 → ∀ sols : SolArg,
      create_oracle n sols =
        .error (.valueError "Number of qubits must be a positive integer") ∧
      create_circuit n sols =
        .error (.valueError "Number of qubits must be a positive integer")) ∧
    (0 < n → xs = [] →
      create_oracle n (.list xs) =
        .error (.valueError "Solutions must be provided as a non-empty list")) ∧
    (0 < n → xs ≠ [] → xs.any (badSol (2 ^ n.toNat)) = true →
      create_oracle n (.list xs) =
        .error (.valueError
          ("All solutions must be integers in range " ++ rangeText (2 ^ n.toNat))) ∧
      create_circuit n (.list xs) =
        .error (.valueError
          ("All solutions must be integers in range " ++ rangeText (2 ^ n.toNat)))) := by
  refine ⟨?_, ?_, ?_⟩
  · intro hn sols
    exact ⟨create_oracle_neg n sols hn,
      create_circuit_of_valueError n sols _ (createCircuitBody_neg n sols hn)⟩
  · intro hn hxs
    subst hxs
    exact create_oracle_empty n hn
  · intro hn hne hany
    exact ⟨create_oracle_bad_range n hn xs hne hany,
      create_circuit_of_valueError n (.list xs) _
        (createCircuitBody_bad_range n (.list xs) xs hn rfl hany)⟩

/-- Witness for the amended C9 at n = 2, s_list = [5]. -/
theorem validation_messages_witness :
    (0 : ℤ) < 2 ∧ ([Sol.int 5] : List Sol) ≠ [] ∧
    ([Sol.int 5] : List Sol).any (badSol (2 ^ (2 : ℤ).toNat)) = true ∧
    (create_oracle 2 (.list [Sol.int 5]) =
      .error (.valueError
        ("All solutions must be integers in range " ++ rangeText (2 ^ (2 : ℤ).toNat))) ∧
    create_circuit 2 (.list [Sol.int 5]) =
      .error (.valueError
        ("All solutions must be integers in range " ++ rangeText (2 ^ (2 : ℤ).toNat)))) :=
  ⟨by decide, by decide, by decide,
    (validation_messages 2 [Sol.int 5]).2.2 (by decide) (by decide) (by decide)⟩

/-- C5: for every n > 0 and every non-empty list of integers each in
[0, 2^n−1] (duplicates allowed), `create_oracle(n, s_list)` returns a circuit
containing a single opaque unitary block labeled "Oracle" over all n qubits
whose matrix is the 2^n × 2^n identity except with −1 on the diagonal at each
listed solution index. -/
theorem create_oracle_matrix (n : ℤ) (xs : List Sol) (hn : 0 < n) (hne : xs ≠ [])
    (hval : xs.any (badSol (2 ^ n.toNat)) = false) :
    create_oracle n (.list xs) =
      .ok [Gate.unitary (oracleMatrix (xs.filterMap Sol.intVal))
            (List.range n.toNat) "Oracle"] ∧
    ∀ i j : ℕ, i < 2 ^ n.toNat → j < 2 ^ n.toNat →
      oracleMatrix (xs.filterMap Sol.intVal) i j =
        if i = j then (if (i : ℤ) ∈ xs.filterMap Sol.intVal then -1 else 1) else 0 := by
  refine ⟨create_oracle_ok n xs hn hne hval, ?_⟩
  intro i j hi hj
  have hnn := validated_sols (2 ^ n.toNat) xs hval
  have hmem : i ∈ (xs.filterMap Sol.intVal).map Int.toNat ↔
      (i : ℤ) ∈ xs.filterMap Sol.intVal := by
    constructor
    · intro h
      rcases List.mem_map.mp h with ⟨a, ha, rfl⟩
      have := (hnn a ha).1
      rwa [Int.toNat_of_nonneg this]
    · intro h
      exact List.mem_map.mpr ⟨(i : ℤ), h, Int.toNat_natCast i⟩
  rw [oracleMatrix, foldl_setNeg, eyeZ]
  by_cases hij : i = j
  · subst hij
    by_cases hm : (i : ℤ) ∈ xs.filterMap Sol.intVal
    · rw [if_pos ⟨rfl, hmem.mpr hm⟩, if_pos rfl, if_pos hm]
    · rw [if_neg (fun hc => hm (hmem.mp hc.2)), if_pos rfl, if_pos rfl, if_neg hm]
  · simp [hij]

/-- Witness for C5 at n = 1, s_list = [0]. -/
theorem create_oracle_matrix_witness :
    (0 : ℤ) < 1 ∧ ([Sol.int 0] : List Sol) ≠ [] ∧
    ([Sol.int 0] : List Sol).any (badSol (2 ^ (1 : ℤ).toNat)) = false ∧
    (create_oracle 1 (.list [Sol.int 0]) =
      .ok [Gate.unitary (oracleMatrix (([Sol.int 0] : List Sol).filterMap Sol.intVal))
            (List.range (1 : ℤ).toNat) "Oracle"] ∧
    ∀ i j : ℕ, i < 2 ^ (1 : ℤ).toNat → j < 2 ^ (1 : ℤ).toNat →
      oracleMatrix (([Sol.int 0] : List Sol).filterMap Sol.intVal) i j =
        if i = j
        then (if (i : ℤ) ∈ ([Sol.int 0] : List Sol).filterMap Sol.intVal then -1 else 1)
        else 0) :=
  ⟨by decide, by decide, by decide,
    create_oracle_matrix 1 [Sol.int 0] (by decide) (by decide) (by decide)⟩

/-- C2: for every n > 0 and every M with 1 ≤ M < 2^n, `calculate_iterations(2^n, M)`
returns `max(1, floor((π/4)·sqrt(2^n/M)))`. -/
theorem calculate_iterations_formula (n : ℕ) (M : ℤ) (hn : 0 < n)
    (h1 : 1 ≤ M) (h2 : M < 2 ^ n) :
    calculate_iterations (2 ^ n) M =
      .ok (max 1 ⌊(Real.pi / 4) * Real.sqrt ((((2 : ℤ) ^ n : ℤ) : ℝ) / (M : ℝ))⌋) := by
  unfold calculate_iterations
  rw [if_neg (not_le.mpr h2), if_neg (by omega),
    if_neg (fun h => absurd h.1 (by omega))]

/-- Witness for C2 at n = 2, M = 1. -/
theorem calculate_iterations_formula_witness :
    0 < 2 ∧ (1 : ℤ) ≤ 1 ∧ (1 : ℤ) < 2 ^ 2 ∧
      calculate_iterations (2 ^ 2) 1 =
        .ok (max 1 ⌊(Real.pi / 4) * Real.sqrt ((((2 : ℤ) ^ 2 : ℤ) : ℝ) / ((1 : ℤ) : ℝ))⌋) :=
  ⟨by decide, by decide, by decide,
    calculate_iterations_formula 2 1 (by decide) (by decide) (by decide)⟩

/-- C3: for every n > 0 and every M with M ≥ 2^n, `calculate_iterations(2^n, M)`
returns exactly 1. -/
theorem calculate_iterations_degenerate (n : ℕ) (M : ℤ) (hn : 0 < n)
    (hM : (2 : ℤ) ^ n ≤ M) :
    calculate_iterations (2 ^ n) M = .ok 1 := by
  unfold calculate_iterations
  rw [if_pos hM]

/-- Witness for C3 at n = 1, M = 5. -/
theorem calculate_iterations_degenerate_witness :
    0 < 1 ∧ (2 : ℤ) ^ 1 ≤ 5 ∧ calculate_iterations (2 ^ 1) 5 = .ok 1 :=
  ⟨by decide, by decide, calculate_iterations_degenerate 1 5 (by decide) (by decide)⟩

/-- C10: `calculate_iterations` performs no input validation: for every pair
with M ≥ N (including zero or negative values of both) it returns 1, and for
M = 0 with N > 0 it reaches the unguarded division `N / M`, raising a
`ZeroDivisionError` rather than rejecting the input with a `ValueError`. -/
theorem calculate_iterations_unvalidated :
    (∀ N M : ℤ, N ≤ M → calculate_iterations N M = .ok 1) ∧
    (∀ N : ℤ, 0 < N →
      calculate_iterations N 0 = .error (.zeroDivisionError "division by zero")) := by
  constructor
  · intro N M h
    unfold calculate_iterations
    rw [if_pos h]
  · intro N hN
    unfold calculate_iterations
    rw [if_neg (by omega), if_pos rfl]

/-- Witness for C10 at N = -3, M = -1 (both negative) and at N = 4, M = 0. -/
theorem calculate_iterations_unvalidated_witness :
    (-3 : ℤ) ≤ (-1 : ℤ) ∧ calculate_iterations (-3) (-1) = .ok 1 ∧
    (0 : ℤ) < 4 ∧ calculate_iterations 4 0 = .error (.zeroDivisionError "division by zero") :=
  ⟨by decide, calculate_iterations_unvalidated.1 (-3) (-1) (by decide), by decide,
    calculate_iterations_unvalidated.2 4 (by decide)⟩

end GroverPy
